import Mathlib

/- Verification of the feature-extraction and heuristic-classification core of
the resurface repository (src/features.py and src/heuristics.py).

Python strings are modelled as lists of characters; Python floats appearing in
the scoring pipeline are modelled as rationals (every constant in the scorers
is a small literal, so float arithmetic is exact there).  Python regular
expressions are modelled by hand-written matchers; the character classes \s,
\d and \w are modelled by their ASCII parts, which is exact on every text this
development evaluates and irrelevant to the universally quantified claims
(those use the matchers only as opaque line predicates). -/

abbrev Str := List Char

/-- Converts a Lean string literal to the character-list model. -/
def str (s : String) : Str := s.toList

/-- Model of the regex class \s (ASCII part). -/
def isSpace (c : Char) : Bool :=
  c = ' ' || c = '\t' || c = '\n' || c = '\r' || c = '\x0b' || c = '\x0c'

/-- Model of the regex class \w (ASCII part): letters, digits, underscore. -/
def isWordChar (c : Char) : Bool := c.isAlphanum || c = '_'

/-- Python str.lower, character by character (ASCII case folding). -/
def lower (s : Str) : Str := s.map Char.toLower

/-- If lit is a prefix of s, strip it and return the remainder. -/
def stripLit : Str → Str → Option Str
  | [], s => some s
  | _ :: _, [] => none
  | l :: ls, c :: cs => if l = c then stripLit ls cs else none

/-- Does the predicate p match at some suffix of the text (regex search). -/
def searchFrom (p : Str → Bool) : Str → Bool
  | [] => p []
  | c :: rest => p (c :: rest) || searchFrom p rest

/-- Python substring test: needle in hay. -/
def substr (needle hay : Str) : Bool :=
  searchFrom (fun s => (stripLit needle s).isSome) hay

/-- Greedy [\s]* at the start of a line. -/
def dropSpaces (s : Str) : Str := s.dropWhile isSpace

/-- One-or-more of a class, greedy; returns the remainder on success.  Exact
for the regexes below because adjacent classes are disjoint. -/
def chompPlus (p : Char → Bool) (s : Str) : Option Str :=
  match s with
  | [] => none
  | c :: rest => if p c then some (rest.dropWhile p) else none

/-- features.py bullet_pattern: re.match of r"^[\s]*[•\-\*\+]\s+". -/
def bulletMatch (line : Str) : Bool :=
  match dropSpaces line with
  | c :: d :: _ => (c = '•' || c = '-' || c = '*' || c = '+') && isSpace d
  | _ => false

/-- features.py numbered_pattern: re.match of r"^[\s]*\d+[\.\)]\s+". -/
def numberedMatch (line : Str) : Bool :=
  let t := dropSpaces line
  match t.takeWhile Char.isDigit, t.dropWhile Char.isDigit with
  | _ :: _, c :: d :: _ => (c = '.' || c = ')') && isSpace d
  | _, _ => false

/-- features.py quote_author_pattern: re.match of r"^[\s]*[—\-]\s+\w+\s+\w+". -/
def quoteAuthorMatch (line : Str) : Bool :=
  match dropSpaces line with
  | [] => false
  | c :: rest =>
    (c = '—' || c = '-') &&
    (match chompPlus isSpace rest with
     | none => false
     | some r1 =>
       match chompPlus isWordChar r1 with
       | none => false
       | some r2 =>
         match chompPlus isSpace r2 with
         | none => false
         | some r3 =>
           match r3 with
           | d :: _ => isWordChar d
           | [] => false)

/-- Tail \s+\d+ of heuristics.py serves_pattern. -/
def servesTailMatch (s : Str) : Bool :=
  match chompPlus isSpace s with
  | none => false
  | some r =>
    match r with
    | d :: _ => d.isDigit
    | [] => false

/-- heuristics.py serves_pattern at one position: r"(serves|makes)\s+\d+". -/
def servesHere (s : Str) : Bool :=
  (match stripLit (str "serves") s with
   | some r => servesTailMatch r
   | none => false)
  ||
  (match stripLit (str "makes") s with
   | some r => servesTailMatch r
   | none => false)

/-- re.search of serves_pattern with re.IGNORECASE over a line. -/
def servesSearch (line : Str) : Bool := searchFrom servesHere (lower line)

/-- heuristics.py workout_pattern at one position: r"\d+\s*[x×]\s*\d+". -/
def workoutPatternHere (s : Str) : Bool :=
  match chompPlus Char.isDigit s with
  | none => false
  | some r =>
    match r.dropWhile isSpace with
    | c :: rest =>
      (c = 'x' || c = '×') &&
      (match rest.dropWhile isSpace with
       | d :: _ => d.isDigit
       | [] => false)
    | [] => false

/-- re.search of workout_pattern with re.IGNORECASE over a line. -/
def workoutPatternSearch (line : Str) : Bool :=
  searchFrom workoutPatternHere (lower line)

-- Vocabulary lists of features.py.
def MEASURE_UNITS : List Str :=
  [str "g", str "kg", str "ml", str "l", str "tbsp", str "tsp",
   str "cup", str "cups", str "oz", str "°c", str "°f"]

def COOKING_VERBS : List Str :=
  [str "preheat", str "mix", str "stir", str "bake", str "boil",
   str "simmer", str "chop", str "fry", str "whisk", str "serve"]

def INGREDIENT_SECTION_TERMS : List Str :=
  [str "ingredients", str "serves", str "makes", str "yield"]

def STEP_TERMS : List Str :=
  [str "instructions", str "method", str "directions", str "steps"]

def WORKOUT_TERMS : List Str :=
  [str "sets", str "reps", str "rest", str "warm-up", str "cooldown",
   str "amrap", str "emom", str "rounds"]

def WORKOUT_BODY_PARTS : List Str :=
  [str "legs", str "chest", str "back", str "shoulders", str "glutes",
   str "core", str "abs"]

-- In features.py this line reads  QUOTE_MARKERS = ["—", "-", """, """, '"']
-- and Python's tokenizer parses the middle  """, """  as a single
-- triple-quoted string whose content is a comma followed by a space, so the
-- list the interpreter builds has exactly these four elements.
def QUOTE_MARKERS : List Str :=
  [str "—", str "-", str ", ", str "\""]

/-- ocr.py OcrResult: full text plus its non-blank lines. -/
structure OcrResult where
  full_text : Str
  lines : List Str

/-- features.py LayoutFeatures. -/
structure LayoutFeatures where
  line_count : Nat
  bullet_lines : Nat
  numbered_lines : Nat
  avg_line_length : ℚ

/-- features.py Features. -/
structure Features where
  ocr : OcrResult
  layout : LayoutFeatures
  num_units : Nat
  num_cooking_verbs : Nat
  num_workout_terms : Nat
  num_body_parts : Nat
  has_ingredients_section : Bool
  has_steps_section : Bool
  has_quote_author_pattern : Bool
  quote_mark_count : Nat

/-- features.py compute_layout_features. -/
def compute_layout_features (ocr : OcrResult) : LayoutFeatures :=
  let lines := ocr.lines
  let line_count := lines.length
  let bullet_lines := lines.countP bulletMatch
  let numbered_lines := lines.countP numberedMatch
  let avg_line_length : ℚ :=
    if line_count > 0 then ((lines.map List.length).sum : ℚ) / (line_count : ℚ) else 0
  ⟨line_count, bullet_lines, numbered_lines, avg_line_length⟩

/-- features.py compute_features. -/
def compute_features (ocr : OcrResult) : Features :=
  let layout := compute_layout_features ocr
  let text_lower := lower ocr.full_text
  let num_units := MEASURE_UNITS.countP (fun u => substr (lower u) text_lower)
  let num_cooking_verbs :=
    COOKING_VERBS.countP (fun v => ocr.lines.any (fun l => substr (lower v) (lower l)))
  let num_workout_terms :=
    WORKOUT_TERMS.countP (fun t => ocr.lines.any (fun l => substr (lower t) (lower l)))
  let num_body_parts :=
    WORKOUT_BODY_PARTS.countP (fun t => ocr.lines.any (fun l => substr (lower t) (lower l)))
  let has_ingredients_section :=
    INGREDIENT_SECTION_TERMS.any (fun t => substr (lower t) text_lower)
  let has_steps_section := STEP_TERMS.any (fun t => substr (lower t) text_lower)
  let has_quote_author_pattern := ocr.lines.any quoteAuthorMatch
  let quote_mark_count := QUOTE_MARKERS.countP (fun m => substr m ocr.full_text)
  ⟨ocr, layout, num_units, num_cooking_verbs, num_workout_terms, num_body_parts,
   has_ingredients_section, has_steps_section, has_quote_author_pattern,
   quote_mark_count⟩

/-- Python len(line.split()): number of maximal non-whitespace runs. -/
def wordCount (s : Str) : Nat :=
  (s.foldl
    (fun st c =>
      if isSpace c then (st.1, false)
      else if st.2 then st else (st.1 + 1, true))
    ((0, false) : Nat × Bool)).1

/-- heuristics.py score_recipe: the sequential additions written as a sum. -/
def score_recipe (feats : Features) : ℚ :=
  (if feats.has_ingredients_section then 3 else 0)
  + (if feats.num_units ≥ 3 then 2 else 0)
  + (if feats.num_cooking_verbs ≥ 2 then 2 else 0)
  + (if feats.layout.bullet_lines ≥ 3 then 1 else 0)
  + (if feats.layout.numbered_lines ≥ 2 then 1 else 0)
  + (if feats.ocr.lines.any servesSearch then 1 else 0)

/-- heuristics.py sets_reps_count inside score_workout: number of lines whose
lower-cased text contains "sets" or "reps". -/
def sets_reps_count (lines : List Str) : Nat :=
  lines.countP (fun line => substr (str "sets") (lower line) || substr (str "reps") (lower line))

/-- heuristics.py score_workout; the final  score -= 2.0  is the subtraction. -/
def score_workout (feats : Features) : ℚ :=
  (if sets_reps_count feats.ocr.lines ≥ 2 then 3 else 0)
  + (if feats.ocr.lines.any workoutPatternSearch then 2 else 0)
  + (if feats.num_workout_terms ≥ 2 then 2 else 0)
  + (if feats.num_body_parts > 0 then 1 else 0)
  + (if feats.layout.bullet_lines ≥ 2 ∨ feats.layout.numbered_lines ≥ 2 then 1 else 0)
  - (if feats.has_ingredients_section then 2 else 0)

/-- Line contains some element of QUOTE_MARKERS (on the raw line). -/
def hasQuoteMark (line : Str) : Bool :=
  QUOTE_MARKERS.any (fun m => substr m line)

/-- heuristics.py score_quote; the for-loop with break adds 2.0 exactly when
some line has a quote marker and at least 4 words. -/
def score_quote (feats : Features) : ℚ :=
  (if feats.ocr.lines.any (fun line => hasQuoteMark line && decide (wordCount line ≥ 4))
   then 2 else 0)
  + (if feats.has_quote_author_pattern then 3 else 0)
  + (if 1 ≤ feats.layout.line_count ∧ feats.layout.line_count ≤ 6 then 1 else 0)
  + (if feats.layout.avg_line_length ≥ 40 then 1 else 0)
  + (if feats.num_units = 0 ∧ feats.num_workout_terms = 0 then 1 else 0)

/-- heuristics.py ClassificationResult; the Python dict of scores is an
insertion-ordered association list. -/
structure ClassificationResult where
  item_type : String
  scores : List (String × ℚ)
  threshold : ℚ

/-- Python max(scores, key=scores.get) over a non-empty dict: left-to-right
fold keeping the current best, replaced only on a strictly greater value, so
the first key attaining the maximum wins.  The nil branch is unreachable at
the single call site (the scores dict always has three entries). -/
def pyArgmax (l : List (String × ℚ)) : String × ℚ :=
  match l with
  | [] => ("none", 0)
  | x :: xs => xs.foldl (fun b y => if b.2 < y.2 then y else b) x

/-- heuristics.py classify with its default threshold of 5.0. -/
def classify (feats : Features) (threshold : ℚ := 5) : ClassificationResult :=
  let scores : List (String × ℚ) :=
    [("recipe", score_recipe feats), ("workout", score_workout feats),
     ("quote", score_quote feats)]
  let best := pyArgmax scores
  ⟨if best.2 < threshold then "none" else best.1, scores, threshold⟩

-- Concrete inputs used by the evaluation theorems.

/-- The workout end-to-end example of the spec (also the text of the repo's
own test_score_workout). -/
def ex_workout : OcrResult :=
  ⟨str "3 sets of 10 reps\nRest 60 seconds\nLegs workout",
   [str "3 sets of 10 reps", str "Rest 60 seconds", str "Legs workout"]⟩

/-- The empty OCR result. -/
def ex_empty : OcrResult := ⟨[], []⟩

/-- A feature record on which all three scores tie at 0 (num_units = 1
suppresses the quote bonus for unit-free text). -/
def ex_tie : Features :=
  ⟨ex_empty, ⟨0, 0, 0, 0⟩, 1, 0, 0, 0, false, false, false, 0⟩

/-- A one-line OCR result with a non-empty line. -/
def ex_line : OcrResult := ⟨str "ab", [str "ab"]⟩

/-- An OCR result whose text contains the letter l inside a longer word. -/
def ex_only : OcrResult := ⟨str "only", [str "only"]⟩

set_option maxRecDepth 10000

-- Helper lemmas shared by the claim theorems.

theorem substr_singleton {a : Char} {l : Str} (ha : a ∈ l) : substr [a] l = true := by
  induction l with
  | nil => cases ha
  | cons c cs ih =>
    rcases List.mem_cons.1 ha with rfl | hmem
    · simp [substr, searchFrom, stripLit]
    · have := ih hmem
      simp only [substr, searchFrom] at this ⊢
      simp [this]

theorem pyArgmax_three (r w q : ℚ) (n1 n2 n3 : String) :
    pyArgmax [(n1, r), (n2, w), (n3, q)] =
      if (if r < w then w else r) < q then (n3, q)
      else if r < w then (n2, w) else (n1, r) := by
  simp only [pyArgmax, List.foldl_cons, List.foldl_nil]
  rcases lt_or_le r w with h | h
  · simp [h]
  · simp [not_lt.2 h]

theorem chain_eq (r w q t : ℚ) :
    (if (if (if r < w then w else r) < q then (("quote", q) : String × ℚ)
         else if r < w then ("workout", w) else ("recipe", r)).2 < t
     then "none"
     else (if (if r < w then w else r) < q then (("quote", q) : String × ℚ)
           else if r < w then ("workout", w) else ("recipe", r)).1) =
    (if max r (max w q) < t then "none"
     else if r = max r (max w q) then "recipe"
     else if w = max r (max w q) then "workout"
     else "quote") := by
  rcases lt_or_le r w with h1 | h1
  · simp only [if_pos h1]
    rcases lt_or_le w q with h2 | h2
    · have hm : max r (max w q) = q := by
        rw [max_eq_right h2.le, max_eq_right (h1.trans h2).le]
      simp only [if_pos h2, hm]
      by_cases ht : q < t
      · simp [ht]
      · simp only [if_neg ht]
        simp [ne_of_lt (h1.trans h2), ne_of_lt h2]
    · have hm : max r (max w q) = w := by
        rw [max_eq_left h2, max_eq_right h1.le]
      simp only [if_neg (not_lt.2 h2), hm]
      by_cases ht : w < t
      · simp [ht]
      · simp only [if_neg ht]
        simp [ne_of_lt h1]
  · simp only [if_neg (not_lt.2 h1)]
    rcases lt_or_le r q with h2 | h2
    · have hm : max r (max w q) = q := by
        rw [max_eq_right (h1.trans h2.le), max_eq_right h2.le]
      simp only [if_pos h2, hm]
      by_cases ht : q < t
      · simp [ht]
      · simp only [if_neg ht]
        simp [ne_of_lt h2, ne_of_lt (lt_of_le_of_lt h1 h2)]
    · have hm : max r (max w q) = r := by
        rw [max_eq_left (max_le h1 h2)]
      simp only [if_neg (not_lt.2 h2), hm]
      by_cases ht : r < t
      · simp [ht]
      · simp [if_neg ht]

theorem classify_spec (f : Features) (t : ℚ) :
    classify f t =
      ⟨if max (score_recipe f) (max (score_workout f) (score_quote f)) < t then "none"
        else if score_recipe f = max (score_recipe f) (max (score_workout f) (score_quote f))
          then "recipe"
        else if score_workout f = max (score_recipe f) (max (score_workout f) (score_quote f))
          then "workout"
        else "quote",
       [("recipe", score_recipe f), ("workout", score_workout f), ("quote", score_quote f)],
       t⟩ := by
  simp only [classify, pyArgmax_three, ClassificationResult.mk.injEq, and_true, true_and]
  exact chain_eq (score_recipe f) (score_workout f) (score_quote f) t

theorem classify_item_type (f : Features) (t : ℚ) :
    (classify f t).item_type =
      if max (score_recipe f) (max (score_workout f) (score_quote f)) < t then "none"
      else if score_recipe f = max (score_recipe f) (max (score_workout f) (score_quote f))
        then "recipe"
      else if score_workout f = max (score_recipe f) (max (score_workout f) (score_quote f))
        then "workout"
      else "quote" := by
  rw [classify_spec]

-- Evaluation of the pipeline on the concrete examples.

theorem layout_ex_workout : compute_layout_features ex_workout = ⟨3, 0, 0, 44 / 3⟩ := by
  have hL : ex_workout.lines.length = 3 := by decide
  have hS : (ex_workout.lines.map List.length).sum = 44 := by decide
  have hb : ex_workout.lines.countP bulletMatch = 0 := by decide
  have hn : ex_workout.lines.countP numberedMatch = 0 := by decide
  simp only [compute_layout_features, hL, hS, hb, hn, LayoutFeatures.mk.injEq]
  norm_num

theorem layout_ex_empty : compute_layout_features ex_empty = ⟨0, 0, 0, 0⟩ := by
  simp [compute_layout_features, ex_empty]

theorem score_recipe_ex_workout : score_recipe (compute_features ex_workout) = 0 := by
  have c1 : (compute_features ex_workout).has_ingredients_section = false := by decide
  have c2 : (compute_features ex_workout).num_units = 2 := by decide
  have c3 : (compute_features ex_workout).num_cooking_verbs = 0 := by decide
  have c4 : (compute_features ex_workout).layout.bullet_lines = 0 := by decide
  have c5 : (compute_features ex_workout).layout.numbered_lines = 0 := by decide
  have c6 : (compute_features ex_workout).ocr.lines.any servesSearch = false := by decide
  rw [score_recipe, c1, c2, c3, c4, c5, c6]
  norm_num

theorem score_workout_ex_workout : score_workout (compute_features ex_workout) = 3 := by
  have c1 : sets_reps_count (compute_features ex_workout).ocr.lines = 1 := by decide
  have c2 : (compute_features ex_workout).ocr.lines.any workoutPatternSearch = false := by
    decide
  have c3 : (compute_features ex_workout).num_workout_terms = 3 := by decide
  have c4 : (compute_features ex_workout).num_body_parts = 1 := by decide
  have c5 : (compute_features ex_workout).layout.bullet_lines = 0 := by decide
  have c6 : (compute_features ex_workout).layout.numbered_lines = 0 := by decide
  have c7 : (compute_features ex_workout).has_ingredients_section = false := by decide
  rw [score_workout, c1, c2, c3, c4, c5, c6, c7]
  norm_num

theorem score_quote_ex_workout : score_quote (compute_features ex_workout) = 1 := by
  have c1 : (compute_features ex_workout).ocr.lines.any
      (fun line => hasQuoteMark line && decide (wordCount line ≥ 4)) = false := by decide
  have c2 : (compute_features ex_workout).has_quote_author_pattern = false := by decide
  have c3 : (compute_features ex_workout).layout.line_count = 3 := by decide
  have c4 : (compute_features ex_workout).layout.avg_line_length = 44 / 3 := by
    rw [show (compute_features ex_workout).layout = compute_layout_features ex_workout from rfl,
      layout_ex_workout]
  have c5 : (compute_features ex_workout).num_units = 2 := by decide
  rw [score_quote, c1, c2, c3, c4, c5]
  norm_num

theorem score_recipe_ex_empty : score_recipe (compute_features ex_empty) = 0 := by
  have c1 : (compute_features ex_empty).has_ingredients_section = false := by decide
  have c2 : (compute_features ex_empty).num_units = 0 := by decide
  have c3 : (compute_features ex_empty).num_cooking_verbs = 0 := by decide
  have c4 : (compute_features ex_empty).layout.bullet_lines = 0 := by decide
  have c5 : (compute_features ex_empty).layout.numbered_lines = 0 := by decide
  have c6 : (compute_features ex_empty).ocr.lines.any servesSearch = false := by decide
  rw [score_recipe, c1, c2, c3, c4, c5, c6]
  norm_num

theorem score_workout_ex_empty : score_workout (compute_features ex_empty) = 0 := by
  have c1 : sets_reps_count (compute_features ex_empty).ocr.lines = 0 := by decide
  have c2 : (compute_features ex_empty).ocr.lines.any workoutPatternSearch = false := by decide
  have c3 : (compute_features ex_empty).num_workout_terms = 0 := by decide
  have c4 : (compute_features ex_empty).num_body_parts = 0 := by decide
  have c5 : (compute_features ex_empty).layout.bullet_lines = 0 := by decide
  have c6 : (compute_features ex_empty).layout.numbered_lines = 0 := by decide
  have c7 : (compute_features ex_empty).has_ingredients_section = false := by decide
  rw [score_workout, c1, c2, c3, c4, c5, c6, c7]
  norm_num

theorem score_quote_ex_empty : score_quote (compute_features ex_empty) = 1 := by
  have c1 : (compute_features ex_empty).ocr.lines.any
      (fun line => hasQuoteMark line && decide (wordCount line ≥ 4)) = false := by decide
  have c2 : (compute_features ex_empty).has_quote_author_pattern = false := by decide
  have c3 : (compute_features ex_empty).layout.line_count = 0 := by decide
  have c4 : (compute_features ex_empty).layout.avg_line_length = 0 := by
    rw [show (compute_features ex_empty).layout = compute_layout_features ex_empty from rfl,
      layout_ex_empty]
  have c5 : (compute_features ex_empty).num_units = 0 := by decide
  have c6 : (compute_features ex_empty).num_workout_terms = 0 := by decide
  rw [score_quote, c1, c2, c3, c4, c5, c6]
  norm_num

theorem score_recipe_ex_tie : score_recipe ex_tie = 0 := by
  rw [score_recipe]
  norm_num [ex_tie, ex_empty]

theorem score_workout_ex_tie : score_workout ex_tie = 0 := by
  rw [score_workout]
  norm_num [ex_tie, ex_empty, sets_reps_count]

theorem score_quote_ex_tie : score_quote ex_tie = 0 := by
  rw [score_quote]
  norm_num [ex_tie, ex_empty]

-- Claim theorems.

/-- C1: the spec asserts that on the lines ["3 sets of 10 reps", "Rest 60
seconds", "Legs workout"] the extracted features give num_workout_terms ≥ 2
and num_body_parts ≥ 1 (which holds) and that score_workout reaches 5.0 so
that classify at threshold 5.0 returns "workout".  The code instead yields
score_workout = 3.0 (the +3 sets/reps rule needs two such lines but only one
line contains "sets" or "reps") and classify returns "none"; the repository's
own test_score_workout asserts score ≥ 5.0 on this text and fails.  This
theorem evaluates the code at the failing input. -/
theorem claim_C1_workout_example_divergence :
    2 ≤ (compute_features ex_workout).num_workout_terms
    ∧ 1 ≤ (compute_features ex_workout).num_body_parts
    ∧ score_workout (compute_features ex_workout) = 3
    ∧ ¬(5 ≤ score_workout (compute_features ex_workout))
    ∧ (classify (compute_features ex_workout) 5).item_type = "none" := by
  refine ⟨by decide, by decide, score_workout_ex_workout, ?_, ?_⟩
  · rw [score_workout_ex_workout]
    norm_num
  · rw [classify_item_type, score_recipe_ex_workout, score_workout_ex_workout,
      score_quote_ex_workout]
    norm_num

/-- C2: for every feature record and threshold, classify reports exactly the
three scores of score_recipe, score_workout and score_quote in its scores
mapping, returns "none" iff the maximum of the three scores is strictly below
the threshold, and otherwise returns a category achieving that maximum. -/
theorem claim_C2_classify_contract (f : Features) (t : ℚ) :
    (classify f t).scores
        = [("recipe", score_recipe f), ("workout", score_workout f), ("quote", score_quote f)]
    ∧ ((classify f t).item_type = "none"
        ↔ max (score_recipe f) (max (score_workout f) (score_quote f)) < t)
    ∧ ((classify f t).item_type = "none"
        ∨ ((classify f t).item_type = "recipe"
            ∧ score_recipe f = max (score_recipe f) (max (score_workout f) (score_quote f)))
        ∨ ((classify f t).item_type = "workout"
            ∧ score_workout f = max (score_recipe f) (max (score_workout f) (score_quote f)))
        ∨ ((classify f t).item_type = "quote"
            ∧ score_quote f = max (score_recipe f) (max (score_workout f) (score_quote f)))) := by
  refine ⟨by rw [classify_spec], ?_, ?_⟩
  · rw [classify_item_type]
    by_cases hm : max (score_recipe f) (max (score_workout f) (score_quote f)) < t
    · simp [hm]
    · simp only [if_neg hm]
      constructor
      · intro hit
        exfalso
        split_ifs at hit <;> exact absurd hit (by decide)
      · intro h2
        exact absurd h2 hm
  · rw [classify_item_type]
    by_cases hm : max (score_recipe f) (max (score_workout f) (score_quote f)) < t
    · left
      simp [hm]
    · simp only [if_neg hm]
      split_ifs with h1 h2
      · right; left
        exact ⟨rfl, h1⟩
      · right; right; left
        exact ⟨rfl, h2⟩
      · right; right; right
        refine ⟨rfl, ?_⟩
        rcases max_choice (score_recipe f) (max (score_workout f) (score_quote f)) with hc | hc
        · exact absurd hc.symm h1
        · rcases max_choice (score_workout f) (score_quote f) with hd | hd
          · exact absurd (hc.trans hd).symm h2
          · exact (hc.trans hd).symm

/-- C3: whenever the maximum score reaches the threshold (so the result is not
"none"), classify picks the first category achieving the maximum in the fixed
priority order recipe, then workout, then quote; in particular ties are broken
deterministically in that order. -/
theorem claim_C3_tie_priority (f : Features) (t : ℚ)
    (h : t ≤ max (score_recipe f) (max (score_workout f) (score_quote f))) :
    (classify f t).item_type =
      if score_recipe f = max (score_recipe f) (max (score_workout f) (score_quote f))
        then "recipe"
      else if score_workout f = max (score_recipe f) (max (score_workout f) (score_quote f))
        then "workout"
      else "quote" := by
  rw [classify_item_type, if_neg (not_lt.2 h)]

/-- C3 witness: on ex_tie all three scores are 0, a three-way tie at the
maximum, and classify at threshold 0 returns "recipe", the first category in
the priority order. -/
theorem claim_C3_tie_priority_witness :
    (0 : ℚ) ≤ max (score_recipe ex_tie) (max (score_workout ex_tie) (score_quote ex_tie))
    ∧ score_recipe ex_tie = score_workout ex_tie
    ∧ score_workout ex_tie = score_quote ex_tie
    ∧ (classify ex_tie 0).item_type = "recipe" := by
  have h0 : (0 : ℚ) ≤ max (score_recipe ex_tie) (max (score_workout ex_tie) (score_quote ex_tie)) := by
    simp [score_recipe_ex_tie, score_workout_ex_tie, score_quote_ex_tie]
  refine ⟨h0, ?_, ?_, ?_⟩
  · rw [score_recipe_ex_tie, score_workout_ex_tie]
  · rw [score_workout_ex_tie, score_quote_ex_tie]
  · rw [claim_C3_tie_priority ex_tie 0 h0]
    simp [score_recipe_ex_tie, score_workout_ex_tie, score_quote_ex_tie]

/-- C4: score_recipe and score_quote are non-negative for every feature
record, hence the maximum of the three scores is non-negative and classify
with threshold 0 never returns "none". -/
theorem claim_C4_threshold_zero_never_none (f : Features) :
    0 ≤ score_recipe f ∧ 0 ≤ score_quote f ∧ (classify f 0).item_type ≠ "none" := by
  have hr : 0 ≤ score_recipe f := by
    rw [score_recipe]
    split_ifs <;> norm_num
  have hq : 0 ≤ score_quote f := by
    rw [score_quote]
    split_ifs <;> norm_num
  refine ⟨hr, hq, ?_⟩
  rw [classify_item_type]
  have hnl : ¬ (max (score_recipe f) (max (score_workout f) (score_quote f)) < 0) :=
    not_lt.2 (le_trans hr (le_max_left _ _))
  rw [if_neg hnl]
  split_ifs <;> decide

/-- C5: feature extraction on the empty OcrResult (empty text, no lines)
succeeds, and classify at its default threshold 5.0 returns "none". -/
theorem claim_C5_empty_input_none :
    (classify (compute_features ex_empty)).item_type = "none" := by
  show (classify (compute_features ex_empty) 5).item_type = "none"
  rw [classify_item_type, score_recipe_ex_empty, score_workout_ex_empty, score_quote_ex_empty]
  norm_num

/-- C6: flipping has_ingredients_section from False to True while keeping all
other fields fixed lowers score_workout by exactly 2.0. -/
theorem claim_C6_ingredients_penalty (f : Features) :
    score_workout { f with has_ingredients_section := true }
      = score_workout { f with has_ingredients_section := false } - 2 := by
  simp only [score_workout]
  norm_num

/-- C7: when every line is non-empty (the OcrResult invariant),
avg_line_length is 0 exactly when there are no lines, and with at least one
line it is the sum of the line lengths divided by the number of lines. -/
theorem claim_C7_avg_line_length (ocr : OcrResult) (h : ∀ l ∈ ocr.lines, l ≠ []) :
    ((compute_layout_features ocr).avg_line_length = 0
      ↔ (compute_layout_features ocr).line_count = 0)
    ∧ (0 < (compute_layout_features ocr).line_count →
        (compute_layout_features ocr).avg_line_length
          = ((ocr.lines.map List.length).sum : ℚ) / (ocr.lines.length : ℚ)) := by
  simp only [compute_layout_features]
  cases hl : ocr.lines with
  | nil => simp
  | cons x xs =>
    have hx : x ≠ [] := h x (by rw [hl]; exact List.mem_cons_self x xs)
    have hxlen : 0 < x.length := List.length_pos.2 hx
    have hS : 0 < ((x :: xs).map List.length).sum := by
      simp only [List.map_cons, List.sum_cons]
      exact lt_of_lt_of_le hxlen (Nat.le_add_right _ _)
    have hpos : 0 < (x :: xs).length := by simp
    have havg : (0 : ℚ) < (((x :: xs).map List.length).sum : ℚ) / ((x :: xs).length : ℚ) :=
      div_pos (by exact_mod_cast hS) (by exact_mod_cast hpos)
    constructor
    · rw [if_pos hpos]
      constructor
      · intro h0
        exact absurd h0 (ne_of_gt havg)
      · intro h0
        simp at h0
    · intro hcount
      rw [if_pos hpos]

/-- C7 witness: the single non-empty line "ab" has avg_line_length 2, not 0. -/
theorem claim_C7_avg_line_length_witness :
    (∀ l ∈ ex_line.lines, l ≠ [])
    ∧ (((compute_layout_features ex_line).avg_line_length = 0
         ↔ (compute_layout_features ex_line).line_count = 0)
       ∧ (0 < (compute_layout_features ex_line).line_count →
           (compute_layout_features ex_line).avg_line_length
             = ((ex_line.lines.map List.length).sum : ℚ) / (ex_line.lines.length : ℚ))) :=
  ⟨by decide, claim_C7_avg_line_length ex_line (by decide)⟩

/-- C8: layout extraction reports line_count equal to the number of lines,
and the bullet and numbered counts lie between 0 and line_count. -/
theorem claim_C8_layout_bounds (ocr : OcrResult) :
    (compute_layout_features ocr).line_count = ocr.lines.length
    ∧ 0 ≤ (compute_layout_features ocr).bullet_lines
    ∧ (compute_layout_features ocr).bullet_lines ≤ (compute_layout_features ocr).line_count
    ∧ 0 ≤ (compute_layout_features ocr).numbered_lines
    ∧ (compute_layout_features ocr).numbered_lines ≤ (compute_layout_features ocr).line_count := by
  simp only [compute_layout_features]
  exact ⟨trivial, Nat.zero_le _, List.countP_le_length _, Nat.zero_le _,
    List.countP_le_length _⟩

/-- C9: every lexical count is bounded by the length of its vocabulary list:
11 measurement units, 10 cooking verbs, 8 workout terms, 7 body parts, and at
most 5 quote markers (the list the interpreter actually builds has 4 entries,
so the stated bound holds a fortiori). -/
theorem claim_C9_vocab_bounds (ocr : OcrResult) :
    (compute_features ocr).num_units ≤ 11
    ∧ (compute_features ocr).num_cooking_verbs ≤ 10
    ∧ (compute_features ocr).num_workout_terms ≤ 8
    ∧ (compute_features ocr).num_body_parts ≤ 7
    ∧ (compute_features ocr).quote_mark_count ≤ 5 := by
  simp only [compute_features]
  exact ⟨le_trans (List.countP_le_length _) (by decide),
    le_trans (List.countP_le_length _) (by decide),
    le_trans (List.countP_le_length _) (by decide),
    le_trans (List.countP_le_length _) (by decide),
    le_trans (List.countP_le_length _) (by decide)⟩

/-- C10: if the full text contains the letter l or the letter g in either
case, even inside a longer word, then num_units is at least 1, because "l"
and "g" are measurement units matched by substring; hence the quote bonus
condition num_units = 0 ∧ num_workout_terms = 0 cannot hold. -/
theorem claim_C10_l_g_always_units (ocr : OcrResult)
    (h : 'l' ∈ ocr.full_text ∨ 'L' ∈ ocr.full_text
          ∨ 'g' ∈ ocr.full_text ∨ 'G' ∈ ocr.full_text) :
    1 ≤ (compute_features ocr).num_units
    ∧ ¬((compute_features ocr).num_units = 0
         ∧ (compute_features ocr).num_workout_terms = 0) := by
  have hc : 'l' ∈ lower ocr.full_text ∨ 'g' ∈ lower ocr.full_text := by
    rcases h with h | h | h | h
    · left
      have hm := List.mem_map_of_mem Char.toLower h
      have e : Char.toLower 'l' = 'l' := by decide
      rw [e] at hm
      exact hm
    · left
      have hm := List.mem_map_of_mem Char.toLower h
      have e : Char.toLower 'L' = 'l' := by decide
      rw [e] at hm
      exact hm
    · right
      have hm := List.mem_map_of_mem Char.toLower h
      have e : Char.toLower 'g' = 'g' := by decide
      rw [e] at hm
      exact hm
    · right
      have hm := List.mem_map_of_mem Char.toLower h
      have e : Char.toLower 'G' = 'g' := by decide
      rw [e] at hm
      exact hm
  have hone : 1 ≤ (compute_features ocr).num_units := by
    simp only [compute_features]
    rcases hc with hc | hc
    · refine List.countP_pos_iff.2 ⟨str "l", by decide, ?_⟩
      have e : lower (str "l") = ['l'] := by decide
      simp only [e]
      exact substr_singleton hc
    · refine List.countP_pos_iff.2 ⟨str "g", by decide, ?_⟩
      have e : lower (str "g") = ['g'] := by decide
      simp only [e]
      exact substr_singleton hc
  refine ⟨hone, ?_⟩
  rintro ⟨h0, _⟩
  omega

/-- C10 witness: the text "only" contains the letter l inside a longer word,
and its num_units is at least 1, defeating the quote bonus condition. -/
theorem claim_C10_l_g_always_units_witness :
    ('l' ∈ ex_only.full_text ∨ 'L' ∈ ex_only.full_text
      ∨ 'g' ∈ ex_only.full_text ∨ 'G' ∈ ex_only.full_text)
    ∧ (1 ≤ (compute_features ex_only).num_units
       ∧ ¬((compute_features ex_only).num_units = 0
            ∧ (compute_features ex_only).num_workout_terms = 0)) :=
  ⟨by decide, claim_C10_l_g_always_units ex_only (by decide)⟩
